import Mathlib

/-!
# Verification of the ottoway-backend route handlers

Shallow embedding of the Express route handlers of `src/routes/contractors.ts`
(both router variants contained in that file), the alternative contractors
router (`src/unnamed/part_000`) and the two projects router variants
(`src/unnamed/part_001`), together with the `ensureUser` identity-shadowing
helper shared by all of them.

Request bodies are modelled as records of `Option String` fields (`none` =
field absent from the JSON body); JavaScript string truthiness (`""` falsy)
is modelled explicitly.  Numeric (`parseFloat`) and date (`new Date`) values
are represented by their source text wrapped in distinct single-field
structures: no claim depends on floating-point or date arithmetic, only on
which field is written where.  The Prisma database is modelled as explicit
lists of rows threaded through each handler; fallible external calls (the
identity provider, the two upserts inside `ensureUser`) take explicit outcome
parameters so that every failure path of the source is reachable.
-/

set_option autoImplicit false

namespace Ottoway

/-- `parseFloat(s)`: the numeric value is represented by its source text;
no claim depends on float semantics, only on which value is stored. -/
structure NumVal where
  src : String
deriving DecidableEq, Repr

/-- `new Date(s)`: represented by its source text. -/
structure DateVal where
  src : String
deriving DecidableEq, Repr

/-- JavaScript truthiness of an optional string field: absent (`undefined`)
and the empty string are falsy, every other string is truthy. -/
def truthy : Option String → Bool
  | none => false
  | some s => s ≠ ""

/-- JavaScript `s.trim()`: drop whitespace from both ends.  Modelled on the
character list (Lean's whitespace predicate standing in for the JS `\s`
class). -/
def jsTrim (s : String) : String :=
  ⟨((s.data.dropWhile Char.isWhitespace).reverse.dropWhile Char.isWhitespace).reverse⟩

/-- JavaScript `s.toLowerCase()`, modelled characterwise. -/
def jsToLower (s : String) : String :=
  ⟨s.data.map Char.toLower⟩

/-- `x?.trim() || null` on an optional string: trim, then collapse a falsy
result (absent input or whitespace-only string) to `null`. -/
def optTrimOrNull : Option String → Option String
  | none => none
  | some s => if jsTrim s = "" then none else some (jsTrim s)

/-- `s.trim().toLowerCase()`, the email normalisation used by the
contractor create and update handlers. -/
def normEmail (s : String) : String :=
  jsToLower (jsTrim s)

/-- `b ? parseFloat(b) : null` on an optional string field. -/
def optParseFloat : Option String → Option NumVal
  | none => none
  | some s => if s = "" then none else some ⟨s⟩

/-- `d ? new Date(d) : null` on an optional string field. -/
def optParseDate : Option String → Option DateVal
  | none => none
  | some s => if s = "" then none else some ⟨s⟩

/-- `r ? parseFloat(r) : 0`, the contractor rating default. -/
def ratingVal : Option String → NumVal
  | none => ⟨"0"⟩
  | some s => if s = "" then ⟨"0"⟩ else ⟨s⟩

/-- Split a character list at every occurrence of `sep`. -/
def splitAtChar (sep : Char) : List Char → List Char → List (List Char)
  | [], acc => [acc.reverse]
  | c :: t, acc => if c = sep then acc.reverse :: splitAtChar sep t [] else splitAtChar sep t (c :: acc)

/-- The email shape test `/^[^\s@]+@[^\s@]+\.[^\s@]+$/` of the contractor
create handler: exactly one `@`, a nonempty whitespace-free local part, and
a whitespace-free remainder containing a dot that is neither its first nor
its last character. -/
def emailRegexTest (s : String) : Bool :=
  match splitAtChar '@' s.data [] with
  | [a, rest] =>
      !a.isEmpty && a.all (fun c => !c.isWhitespace) &&
      rest.all (fun c => !c.isWhitespace) &&
      ((rest.drop 1).dropLast.contains '.')
  | _ => false

/-- Local `User` shadow row (`prisma.user`). -/
structure User where
  clerkId : String
  email : String
  name : String
deriving DecidableEq, Repr

/-- `prisma.contractor` row. -/
structure Contractor where
  id : String
  name : String
  email : String
  phone : Option String
  company : Option String
  trades : List String
  rating : NumVal
  userId : String
deriving DecidableEq, Repr

/-- `prisma.project` row. -/
structure Project where
  id : String
  name : String
  description : Option String
  address : String
  budget : Option NumVal
  startDate : Option DateVal
  endDate : Option DateVal
  isPublic : Bool
  userId : String
  status : String
  createdAt : Nat
deriving DecidableEq, Repr

/-- The relational store, threaded explicitly through every handler. -/
structure Db where
  users : List User
  contractors : List Contractor
  projects : List Project
deriving DecidableEq, Repr

/-- Distinguishable persistence failures: `uniqueViolation` is Prisma's
`P2002`, everything else is an opaque error. -/
inductive DbError where
  | uniqueViolation
  | other (msg : String)
deriving DecidableEq, Repr

/-- The store's unique keys: user `clerkId`s, contractor and project ids
(primary keys), and contractor emails (the global unique constraint). -/
def Db.wf (db : Db) : Prop :=
  (db.users.map User.clerkId).Nodup ∧
  (db.contractors.map Contractor.id).Nodup ∧
  (db.contractors.map Contractor.email).Nodup ∧
  (db.projects.map Project.id).Nodup

instance (db : Db) : Decidable db.wf := by
  unfold Db.wf; infer_instance

/-- The profile returned by `clerkClient.users.getUser`: the fields the
handlers read.  `emailAddresses` is the provider's address list in order, so
its head is the entry the code reads as `emailAddresses[0]`. -/
structure ClerkProfile where
  emailAddresses : List String
  firstName : Option String
  lastName : Option String
  username : Option String
deriving DecidableEq, Repr

/-- Outcome of the identity-provider lookup inside `ensureUser`; `err`
covers every failure reason (network error, unknown id, rate limit). -/
inductive ProviderResult where
  | ok (profile : ClerkProfile)
  | err
deriving DecidableEq, Repr

/-- `prisma.user.upsert` keyed on `clerkId`: apply `upd` to the existing
row, or insert `crt` when no row with that `clerkId` exists.  Returns the
resulting row and the new store. -/
def userUpsert (db : Db) (clerkUserId : String) (upd : User → User) (crt : User) :
    User × Db :=
  match db.users.find? (fun u => u.clerkId == clerkUserId) with
  | some u =>
      let u' := upd u
      (u', { db with users := db.users.map (fun v => if v.clerkId == clerkUserId then u' else v) })
  | none => (crt, { db with users := db.users ++ [crt] })

/-- `clerkUser.emailAddresses[0]?.emailAddress || placeholder`. -/
def clerkEmail (u : ClerkProfile) (clerkUserId : String) : String :=
  match u.emailAddresses.head? with
  | none => clerkUserId ++ "@temp.com"
  | some e => if e = "" then clerkUserId ++ "@temp.com" else e

/-- `clerkUser.firstName ? (firstName + " " + (lastName || "")).trim()
: clerkUser.username || "User"`. -/
def clerkName (u : ClerkProfile) : String :=
  if truthy u.firstName then
    jsTrim ((u.firstName.getD "") ++ " " ++ (u.lastName.getD ""))
  else
    match u.username with
    | none => "User"
    | some un => if un = "" then "User" else un

/-- The placeholder row created by the fallback branch of `ensureUser`. -/
def placeholderUser (clerkUserId : String) : User :=
  ⟨clerkUserId, clerkUserId ++ "@temp.com", "User"⟩

/-- `ensureUser(clerkUserId)` from `src/routes/contractors.ts` lines 8-33
(identical in `part_000` and `part_001`).  The `try` block performs the
provider lookup and, on success, the profile-refreshing upsert; any failure
inside it (provider failure `provider = .err`, or the primary upsert failing
with `primaryFail = some e`) falls to the `catch` block, which performs a
minimal upsert (`update: {}`).  A failure of that fallback upsert
(`fallbackFail = some e`) propagates to the caller. -/
def ensureUser (provider : ProviderResult) (primaryFail fallbackFail : Option DbError)
    (db : Db) (clerkUserId : String) : Except DbError (User × Db) :=
  let tryBlock : Option (User × Db) :=
    match provider with
    | .err => none
    | .ok u =>
        match primaryFail with
        | some _ => none
        | none =>
            let email := clerkEmail u clerkUserId
            let name := clerkName u
            some (userUpsert db clerkUserId
              (fun old => { old with email := email, name := name })
              ⟨clerkUserId, email, name⟩)
  match tryBlock with
  | some r => .ok r
  | none =>
      match fallbackFail with
      | some e => .error e
      | none => .ok (userUpsert db clerkUserId (fun old => old) (placeholderUser clerkUserId))

/-- An HTTP response: the status code and, on success, the JSON body.
Error responses carry no typed body (`body = none`). -/
structure Resp (α : Type) where
  status : Nat
  body : Option α
deriving DecidableEq, Repr

/-- Insert into a list sorted by the Boolean relation `le` (model of the
order produced by Prisma's `orderBy`). -/
def insertOrd {α : Type} (le : α → α → Bool) (c : α) : List α → List α
  | [] => [c]
  | d :: t => if le c d then c :: d :: t else d :: insertOrd le c t

/-- Sort by the Boolean relation `le` (model of Prisma's `orderBy`). -/
def orderBy {α : Type} (le : α → α → Bool) : List α → List α
  | [] => []
  | c :: t => insertOrd le c (orderBy le t)

/-- `orderBy: { name: "asc" }` on contractors. -/
def byNameAsc (a b : Contractor) : Bool :=
  a.name ≤ b.name

/-- `orderBy: { createdAt: "desc" }` on projects. -/
def byCreatedDesc (a b : Project) : Bool :=
  b.createdAt ≤ a.createdAt

/-- Request body of the contractor create/update handlers
(`{ name, email, phone, company, trades, rating }`); `none` = absent. -/
structure ContractorBody where
  name : Option String := none
  email : Option String := none
  phone : Option String := none
  company : Option String := none
  trades : Option (List String) := none
  rating : Option String := none
deriving DecidableEq, Repr

/-- Request body of the project create/update handlers
(`{ name, description, address, budget, status, startDate, endDate,
isPublic }`); `none` = absent.  The create handler ignores `status`. -/
structure ProjectBody where
  name : Option String := none
  description : Option String := none
  address : Option String := none
  budget : Option String := none
  status : Option String := none
  startDate : Option String := none
  endDate : Option String := none
  isPublic : Option Bool := none
deriving DecidableEq, Repr

/-- Modelled from the spec: the Prisma schema (not under `src/`) declares
`Contractor.email` globally unique (spec §3: "email must be globally unique
(not merely unique per owner)"), so `prisma.contractor.create` surfaces the
`P2002` unique-violation condition when any existing contractor row,
regardless of owner, already stores the same email. -/
def contractorCreate (db : Db) (c : Contractor) : Except DbError Db :=
  if db.contractors.any (fun d => d.email == c.email) then
    .error .uniqueViolation
  else
    .ok { db with contractors := db.contractors ++ [c] }

/-- Modelled from the spec: `prisma.contractor.update` applies the update
data to the row with the given id and surfaces `P2002` when the resulting
email is already stored by a different contractor row (globally unique
email, spec §3). -/
def contractorUpdate (db : Db) (id : String) (f : Contractor → Contractor) :
    Except DbError (Contractor × Db) :=
  match db.contractors.find? (fun d => d.id == id) with
  | none => .error (.other "record not found")
  | some c =>
      let c' := f c
      if db.contractors.any (fun d => d.id ≠ id && d.email == c'.email) then
        .error .uniqueViolation
      else
        .ok (c', { db with contractors := db.contractors.map (fun d => if d.id == id then c' else d) })

/-- `prisma.project.update`: apply the update data to the row with the
given id (no unique constraint on projects). -/
def projectUpdate (db : Db) (id : String) (f : Project → Project) :
    Option (Project × Db) :=
  match db.projects.find? (fun d => d.id == id) with
  | none => none
  | some p =>
      let p' := f p
      some (p', { db with projects := db.projects.map (fun d => if d.id == id then p' else d) })

/-- `GET /` of the primary contractors router (`contractors.ts` lines
108-131): `ensureUser`, then the requester's own contractors ordered by
name ascending; any thrown error becomes a 500. -/
def getContractors (provider : ProviderResult) (primaryFail fallbackFail : Option DbError)
    (uid : String) (db : Db) : Resp (List Contractor) × Db :=
  match ensureUser provider primaryFail fallbackFail db uid with
  | .error _ => (⟨500, none⟩, db)
  | .ok (_, db') =>
      (⟨200, some (orderBy byNameAsc (db'.contractors.filter (fun c => c.userId == uid)))⟩, db')

/-- `GET /` of the second contractors router variant (`contractors.ts`
lines 321-332): all contractor rows ordered by name, with no owner filter
and no `ensureUser` call. -/
def getContractorsV2 (db : Db) : Resp (List Contractor) :=
  ⟨200, some (orderBy byNameAsc db.contractors)⟩

/-- `GET /:id` of the primary contractors router (`contractors.ts` lines
133-163): 404 when absent, 403 when the requester is not the owner. -/
def getContractorById (uid id : String) (db : Db) : Resp Contractor :=
  match db.contractors.find? (fun d => d.id == id) with
  | none => ⟨404, none⟩
  | some c => if c.userId ≠ uid then ⟨403, none⟩ else ⟨200, some c⟩

/-- The `data` object passed to `prisma.contractor.create` by `POST /` of
the primary contractors router (`contractors.ts` lines 187-196): trimmed
name, lower-cased trimmed email, `?.trim() || null` phone and company,
`trades || []`, rating default 0 and `userId = uid`. -/
def newContractor (uid freshId : String) (body : ContractorBody) : Contractor :=
  { id := freshId
    name := jsTrim (body.name.getD "")
    email := normEmail (body.email.getD "")
    phone := optTrimOrNull body.phone
    company := optTrimOrNull body.company
    trades := body.trades.getD []
    rating := ratingVal body.rating
    userId := uid }

/-- `POST /` of the primary contractors router (`contractors.ts` lines
165-220): require truthy name and email, test the email shape, `ensureUser`,
then create the `newContractor` data; `P2002` becomes a 409 and any other
thrown error a 500. -/
def postContractor (provider : ProviderResult) (primaryFail fallbackFail : Option DbError)
    (uid freshId : String) (body : ContractorBody) (db : Db) : Resp Contractor × Db :=
  if !truthy body.name || !truthy body.email then (⟨400, none⟩, db)
  else if !emailRegexTest (body.email.getD "") then (⟨400, none⟩, db)
  else
    match ensureUser provider primaryFail fallbackFail db uid with
    | .error _ => (⟨500, none⟩, db)
    | .ok (_, db') =>
        match contractorCreate db' (newContractor uid freshId body) with
        | .error .uniqueViolation => (⟨409, none⟩, db')
        | .error _ => (⟨500, none⟩, db')
        | .ok db'' => (⟨201, some (newContractor uid freshId body)⟩, db'')

/-- The `updateData` object built by `PATCH /:id` of the primary
contractors router (`contractors.ts` lines 240-246): each field present in
the request is applied, normalised as at create; absent fields are left
untouched. -/
def contractorPatchData (body : ContractorBody) (c : Contractor) : Contractor :=
  { c with
    name := match body.name with | none => c.name | some n => jsTrim n
    email := match body.email with | none => c.email | some e => normEmail e
    phone := match body.phone with | none => c.phone | some p => optTrimOrNull (some p)
    company := match body.company with | none => c.company | some p => optTrimOrNull (some p)
    trades := match body.trades with | none => c.trades | some t => t
    rating := match body.rating with | none => c.rating | some r => ratingVal (some r) }

/-- `PATCH /:id` of the primary contractors router (`contractors.ts` lines
222-274): 404 when absent, 403 when not the owner, else apply the
`updateData`; `P2002` becomes a 409. -/
def patchContractor (uid id : String) (body : ContractorBody) (db : Db) :
    Resp Contractor × Db :=
  match db.contractors.find? (fun d => d.id == id) with
  | none => (⟨404, none⟩, db)
  | some existing =>
      if existing.userId ≠ uid then (⟨403, none⟩, db)
      else
        match contractorUpdate db id (contractorPatchData body) with
        | .error .uniqueViolation => (⟨409, none⟩, db)
        | .error _ => (⟨500, none⟩, db)
        | .ok (c, db') => (⟨200, some c⟩, db')

/-- `DELETE /:id` of the primary contractors router (`contractors.ts`
lines 276-309): 404 when absent, 403 when not the owner, else delete and
acknowledge with the id. -/
def deleteContractor (uid id : String) (db : Db) : Resp String × Db :=
  match db.contractors.find? (fun d => d.id == id) with
  | none => (⟨404, none⟩, db)
  | some existing =>
      if existing.userId ≠ uid then (⟨403, none⟩, db)
      else (⟨200, some id⟩, { db with contractors := db.contractors.filter (fun d => d.id ≠ id) })

/-- `DELETE /:id` of the alternative contractors router (`part_000` lines
68-79): a missing row and a row owned by someone else both answer 404
("Not found"); there is no distinct 403 outcome in this variant. -/
def deleteContractorAlt (uid id : String) (db : Db) : Resp String × Db :=
  match db.contractors.find? (fun d => d.id == id) with
  | none => (⟨404, none⟩, db)
  | some existing =>
      if existing.userId ≠ uid then (⟨404, none⟩, db)
      else (⟨200, some id⟩, { db with contractors := db.contractors.filter (fun d => d.id ≠ id) })

/-- `GET /public` of the primary projects router (`part_001` lines 54-81):
all public projects ordered by creation time descending (the field
projection of the source is not modelled; full rows are returned). -/
def getPublicProjects (db : Db) : Resp (List Project) :=
  ⟨200, some (orderBy byCreatedDesc (db.projects.filter (fun p => p.isPublic)))⟩

/-- `GET /` of the primary projects router (`part_001` lines 87-115):
`ensureUser`, then the requester's own projects ordered by creation time
descending. -/
def getProjects (provider : ProviderResult) (primaryFail fallbackFail : Option DbError)
    (uid : String) (db : Db) : Resp (List Project) × Db :=
  match ensureUser provider primaryFail fallbackFail db uid with
  | .error _ => (⟨500, none⟩, db)
  | .ok (_, db') =>
      (⟨200, some (orderBy byCreatedDesc (db'.projects.filter (fun p => p.userId == uid)))⟩, db')

/-- `GET /:id` of the primary projects router (`part_001` lines 121-155):
404 when absent, 403 when the requester is not the owner. -/
def getProjectById (uid id : String) (db : Db) : Resp Project :=
  match db.projects.find? (fun d => d.id == id) with
  | none => ⟨404, none⟩
  | some p => if p.userId ≠ uid then ⟨403, none⟩ else ⟨200, some p⟩

/-- The `data` object passed to `prisma.project.create` by `POST /` of the
primary projects router (`part_001` lines 178-198): trimmed name and
address, `?.trim() || null` description, parsed optional budget and dates,
`isPublic === true`, `userId = uid` and `status: "PLANNING"`. -/
def newProject (uid freshId : String) (now : Nat) (body : ProjectBody) : Project :=
  { id := freshId
    name := jsTrim (body.name.getD "")
    description := optTrimOrNull body.description
    address := jsTrim (body.address.getD "")
    budget := optParseFloat body.budget
    startDate := optParseDate body.startDate
    endDate := optParseDate body.endDate
    isPublic := body.isPublic = some true
    userId := uid
    status := "PLANNING"
    createdAt := now }

/-- `POST /` of the primary projects router (`part_001` lines 161-208):
require truthy name and address, `ensureUser`, then create the `newProject`
data. -/
def postProject (provider : ProviderResult) (primaryFail fallbackFail : Option DbError)
    (uid freshId : String) (now : Nat) (body : ProjectBody) (db : Db) :
    Resp Project × Db :=
  if !truthy body.name || !truthy body.address then (⟨400, none⟩, db)
  else
    match ensureUser provider primaryFail fallbackFail db uid with
    | .error _ => (⟨500, none⟩, db)
    | .ok (_, db') =>
        (⟨201, some (newProject uid freshId now body)⟩,
         { db' with projects := db'.projects ++ [newProject uid freshId now body] })

/-- The `updateData` object built by `PATCH /:id` of the primary projects
router (`part_001` lines 234-242): each field present in the request is
applied, normalised as at create; `status` is applied verbatim; absent
fields are left untouched. -/
def projectPatchData (body : ProjectBody) (p : Project) : Project :=
  { p with
    name := match body.name with | none => p.name | some n => jsTrim n
    description := match body.description with | none => p.description | some d => optTrimOrNull (some d)
    address := match body.address with | none => p.address | some a => jsTrim a
    budget := match body.budget with | none => p.budget | some b => optParseFloat (some b)
    status := match body.status with | none => p.status | some s => s
    startDate := match body.startDate with | none => p.startDate | some d => optParseDate (some d)
    endDate := match body.endDate with | none => p.endDate | some d => optParseDate (some d)
    isPublic := match body.isPublic with | none => p.isPublic | some b => b = true }

/-- `PATCH /:id` of the primary projects router (`part_001` lines
214-266): 404 when absent, 403 when not the owner, else apply the
`updateData`. -/
def patchProject (uid id : String) (body : ProjectBody) (db : Db) :
    Resp Project × Db :=
  match db.projects.find? (fun d => d.id == id) with
  | none => (⟨404, none⟩, db)
  | some existing =>
      if existing.userId ≠ uid then (⟨403, none⟩, db)
      else
        match projectUpdate db id (projectPatchData body) with
        | none => (⟨500, none⟩, db)
        | some (p, db') => (⟨200, some p⟩, db')

/-- The spread-built update object of `PATCH /:id` of the second projects
router variant (`part_001` lines 490-501): `name`, `address`, `status`,
`startDate` and `endDate` are applied verbatim only when truthy (a present
empty string is ignored); `description` is applied verbatim whenever
present (an empty string is stored as the empty string); `budget` is
parsed-or-null whenever present. -/
def projectPatchDataV2 (body : ProjectBody) (p : Project) : Project :=
  { p with
    name := if truthy body.name then body.name.getD "" else p.name
    description := match body.description with | none => p.description | some d => some d
    address := if truthy body.address then body.address.getD "" else p.address
    budget := match body.budget with | none => p.budget | some b => optParseFloat (some b)
    status := if truthy body.status then body.status.getD "" else p.status
    startDate := if truthy body.startDate then some ⟨body.startDate.getD ""⟩ else p.startDate
    endDate := if truthy body.endDate then some ⟨body.endDate.getD ""⟩ else p.endDate }

/-- `PATCH /:id` of the second projects router variant (`part_001` lines
471-508): ownership check as in the primary variant, then the spread-built
update. -/
def patchProjectV2 (uid id : String) (body : ProjectBody) (db : Db) :
    Resp Project × Db :=
  match db.projects.find? (fun d => d.id == id) with
  | none => (⟨404, none⟩, db)
  | some existing =>
      if existing.userId ≠ uid then (⟨403, none⟩, db)
      else
        match projectUpdate db id (projectPatchDataV2 body) with
        | none => (⟨500, none⟩, db)
        | some (p, db') => (⟨200, some p⟩, db')

/-- `DELETE /:id` of the primary projects router (`part_001` lines
272-307): 404 when absent, 403 when not the owner, else delete and
acknowledge with the id. -/
def deleteProject (uid id : String) (db : Db) : Resp String × Db :=
  match db.projects.find? (fun d => d.id == id) with
  | none => (⟨404, none⟩, db)
  | some existing =>
      if existing.userId ≠ uid then (⟨403, none⟩, db)
      else (⟨200, some id⟩, { db with projects := db.projects.filter (fun d => d.id ≠ id) })

/-! ## Helper lemmas -/

/-- In a list whose keys are distinct, `find?` by the key of a member
returns exactly that member. -/
theorem find_of_nodup_key {α : Type} (key : α → String) (l : List α) (c : α)
    (hnd : (l.map key).Nodup) (hc : c ∈ l) :
    l.find? (fun d => key d == key c) = some c := by
  induction l with
  | nil => cases hc
  | cons a t ih =>
      simp only [List.map_cons, List.nodup_cons] at hnd
      rcases List.mem_cons.mp hc with rfl | hct
      · simp [List.find?]
      · have hne : (key a == key c) = false := by
          rw [beq_eq_false_iff_ne]
          intro h
          exact hnd.1 (h ▸ List.mem_map_of_mem key hct)
        rw [List.find?_cons_of_neg _ (by simp [hne]), ih hnd.2 hct]

/-- Membership is preserved by ordered insertion. -/
theorem mem_insertOrd {α : Type} (le : α → α → Bool) (c x : α) (l : List α) :
    x ∈ insertOrd le c l ↔ x = c ∨ x ∈ l := by
  induction l with
  | nil => simp [insertOrd]
  | cons d t ih =>
      by_cases h : le c d
      · simp [insertOrd, h]
      · simp [insertOrd, h, ih]
        tauto

/-- `orderBy` only reorders: membership is unchanged. -/
theorem mem_orderBy {α : Type} (le : α → α → Bool) (x : α) (l : List α) :
    x ∈ orderBy le l ↔ x ∈ l := by
  induction l with
  | nil => simp [orderBy]
  | cons c t ih => simp [orderBy, mem_insertOrd, ih]

/-- With a succeeding fallback upsert, `ensureUser` always returns a row,
and it only ever writes to the `users` table. -/
theorem ensureUser_ok (provider : ProviderResult) (primaryFail : Option DbError)
    (db : Db) (uid : String) :
    ∃ row db', ensureUser provider primaryFail none db uid = .ok (row, db') ∧
      db'.contractors = db.contractors ∧ db'.projects = db.projects := by
  unfold ensureUser userUpsert
  cases provider with
  | err =>
      cases hf : db.users.find? (fun u => u.clerkId == uid) <;> simp <;>
        exact ⟨_, _, ⟨rfl, rfl⟩, rfl, rfl⟩
  | ok u =>
      cases primaryFail with
      | some e =>
          cases hf : db.users.find? (fun u => u.clerkId == uid) <;> simp <;>
            exact ⟨_, _, ⟨rfl, rfl⟩, rfl, rfl⟩
      | none =>
          cases hf : db.users.find? (fun u => u.clerkId == uid) <;> simp [hf] <;>
            exact ⟨_, _, ⟨rfl, rfl⟩, rfl, rfl⟩

/-! ## Claim theorems -/

/-- The empty store, used as a concrete starting state. -/
def emptyDb : Db :=
  { users := [], contractors := [], projects := [] }

/-- C10: the never-raises guarantee of `ensureUser` covers only
identity-provider failures.  If the fallback upsert itself fails,
`ensureUser` propagates that failure to the caller, and the calling route
surfaces it as a 500; with a succeeding fallback write it returns a row. -/
theorem c10_fallback_upsert_failure_propagates (db : Db) (extId : String)
    (primaryFail : Option DbError) (e : DbError) :
    ensureUser .err primaryFail (some e) db extId = .error e ∧
    (getContractors .err primaryFail (some e) extId db).1 = ⟨500, none⟩ ∧
    (∃ row db', ensureUser .err primaryFail none db extId = .ok (row, db')) := by
  refine ⟨rfl, rfl, ?_⟩
  obtain ⟨row, db', h, -, -⟩ := ensureUser_ok .err primaryFail db extId
  exact ⟨row, db', h⟩

/-- `userUpsert` when no row with the key exists: insert the create row. -/
theorem userUpsert_none (db : Db) (k : String) (upd : User → User) (crt : User)
    (hf : db.users.find? (fun u => u.clerkId == k) = none) :
    userUpsert db k upd crt = (crt, { db with users := db.users ++ [crt] }) := by
  unfold userUpsert
  rw [hf]

/-- `userUpsert` when a row with the key exists: apply the update. -/
theorem userUpsert_some (db : Db) (k : String) (upd : User → User) (crt : User)
    (u0 : User) (hf : db.users.find? (fun u => u.clerkId == k) = some u0) :
    userUpsert db k upd crt =
      (upd u0, { db with users := db.users.map (fun v => if v.clerkId == k then upd u0 else v) }) := by
  unfold userUpsert
  rw [hf]

/-- `ensureUser` on a successful provider lookup is the profile-refreshing
upsert (definitional unfolding). -/
theorem ensureUser_ok_eq (u : ClerkProfile) (db : Db) (extId : String)
    (fallbackFail : Option DbError) :
    ensureUser (.ok u) none fallbackFail db extId =
      .ok (userUpsert db extId
        (fun old => { old with email := clerkEmail u extId, name := clerkName u })
        ⟨extId, clerkEmail u extId, clerkName u⟩) := rfl

/-- `ensureUser` on a failed provider lookup with a succeeding fallback
write is the minimal upsert (definitional unfolding). -/
theorem ensureUser_err_eq (primaryFail : Option DbError) (db : Db) (extId : String) :
    ensureUser .err primaryFail none db extId =
      .ok (userUpsert db extId (fun old => old) (placeholderUser extId)) := rfl

/-- C2: when the identity-provider lookup fails for any reason,
`ensureUser` does not propagate the failure: it performs the fallback
upsert, which creates the placeholder row (`<extId>@temp.com` / "User")
only when no row with that `clerkId` exists, leaves a pre-existing row (and
the whole store) unchanged, and returns a User row. -/
theorem c2_provider_failure_fallback (db : Db) (extId : String)
    (primaryFail : Option DbError) (hwf : db.wf) :
    ∃ row db', ensureUser .err primaryFail none db extId = .ok (row, db') ∧
      db'.contractors = db.contractors ∧ db'.projects = db.projects ∧
      (∀ u ∈ db.users, u.clerkId = extId → db' = db ∧ row = u) ∧
      ((∀ u ∈ db.users, u.clerkId ≠ extId) →
        db'.users = db.users ++ [placeholderUser extId] ∧ row = placeholderUser extId) := by
  rw [ensureUser_err_eq]
  cases hf : db.users.find? (fun u => u.clerkId == extId) with
  | none =>
      rw [userUpsert_none db extId _ _ hf]
      refine ⟨placeholderUser extId, _, rfl, rfl, rfl, ?_, fun _ => ⟨rfl, rfl⟩⟩
      intro u hu hueq
      have := List.find?_eq_none.mp hf u hu
      simp [hueq] at this
  | some u0 =>
      rw [userUpsert_some db extId _ _ u0 hf]
      have hu0 : u0.clerkId = extId := by
        have := List.find?_some hf
        simpa using this
      have hmem : u0 ∈ db.users := List.mem_of_find?_eq_some hf
      refine ⟨u0, _, rfl, rfl, rfl, ?_, ?_⟩
      · intro u hu hueq
        have huu0 : u = u0 :=
          List.inj_on_of_nodup_map hwf.1 hu hmem (by rw [hueq, hu0])
        subst huu0
        refine ⟨?_, rfl⟩
        have hmap : db.users.map (fun v => if v.clerkId == extId then u else v) = db.users := by
          rw [List.map_congr_left (g := id), List.map_id]
          intro v hv
          by_cases hvk : v.clerkId = extId
          · have : v = u := List.inj_on_of_nodup_map hwf.1 hv hu (by rw [hvk, hueq])
            simp [hvk, this]
          · simp [hvk]
        rw [hmap]
      · intro hall
        exact absurd hu0 (hall u0 hmem)

/-- C6: when the identity-provider lookup succeeds, `ensureUser` returns a
row whose email is the first provider email address when one is present
(else `<extId>@temp.com`) and whose name is `"<first> <last>"` trimmed when
a first name is present, else the provider username, else "User". -/
theorem c6_ensureUser_success_fields (u : ClerkProfile) (db : Db) (extId : String) :
    ∃ row db', ensureUser (.ok u) none none db extId = .ok (row, db') ∧
      row.email = (match u.emailAddresses.head? with
        | none => extId ++ "@temp.com"
        | some e => if e = "" then extId ++ "@temp.com" else e) ∧
      row.name = (if truthy u.firstName then
          jsTrim ((u.firstName.getD "") ++ " " ++ (u.lastName.getD ""))
        else if truthy u.username then u.username.getD "" else "User") := by
  have hemail : clerkEmail u extId = (match u.emailAddresses.head? with
      | none => extId ++ "@temp.com"
      | some e => if e = "" then extId ++ "@temp.com" else e) := rfl
  have hname : clerkName u = (if truthy u.firstName then
      jsTrim ((u.firstName.getD "") ++ " " ++ (u.lastName.getD ""))
      else if truthy u.username then u.username.getD "" else "User") := by
    unfold clerkName
    cases hfn : truthy u.firstName with
    | true => simp
    | false =>
        simp only [Bool.false_eq_true, if_false]
        cases u.username with
        | none => simp [truthy]
        | some un => by_cases h : un = "" <;> simp [truthy, h]
  rw [ensureUser_ok_eq]
  cases hf : db.users.find? (fun v => v.clerkId == extId) with
  | none =>
      rw [userUpsert_none db extId _ _ hf]
      exact ⟨_, _, rfl, hemail, hname⟩
  | some u0 =>
      rw [userUpsert_some db extId _ _ u0 hf]
      exact ⟨_, _, rfl, hemail, hname⟩

/-- A store with one pre-existing shadow user, for the C2 witness. -/
def dbC2 : Db :=
  { users := [⟨"u1", "old@x.com", "Old Name"⟩], contractors := [], projects := [] }

/-- Witness for C2: at the concrete store `dbC2` the provider-failure
fallback returns the pre-existing row unchanged. -/
theorem c2_witness :
    ∃ row db', ensureUser .err none none dbC2 "u1" = .ok (row, db') ∧
      db'.contractors = dbC2.contractors ∧ db'.projects = dbC2.projects ∧
      (∀ u ∈ dbC2.users, u.clerkId = "u1" → db' = dbC2 ∧ row = u) ∧
      ((∀ u ∈ dbC2.users, u.clerkId ≠ "u1") →
        db'.users = dbC2.users ++ [placeholderUser "u1"] ∧ row = placeholderUser "u1") :=
  c2_provider_failure_fallback dbC2 "u1" none (by decide)

/-- `contractorCreate` succeeds and appends the row when no stored email
matches. -/
theorem contractorCreate_fresh (db : Db) (c : Contractor)
    (h : db.contractors.any (fun d => d.email == c.email) = false) :
    contractorCreate db c = .ok { db with contractors := db.contractors ++ [c] } := by
  unfold contractorCreate
  rw [h]
  rfl

/-- `contractorCreate` surfaces `P2002` when some stored email matches. -/
theorem contractorCreate_dup (db : Db) (c : Contractor)
    (h : db.contractors.any (fun d => d.email == c.email) = true) :
    contractorCreate db c = .error .uniqueViolation := by
  unfold contractorCreate
  rw [h]
  rfl

/-- C7: a successful contractor create stores the trimmed input name and
the trimmed, lower-cased input email, owned by the requester, appended to
the table. -/
theorem c7_create_normalises_fields (provider : ProviderResult) (primaryFail : Option DbError)
    (uid freshId : String) (body : ContractorBody) (db : Db)
    (hname : truthy body.name = true)
    (hemail : truthy body.email = true)
    (hregex : emailRegexTest (body.email.getD "") = true)
    (hfresh : ∀ d ∈ db.contractors, d.email ≠ normEmail (body.email.getD "")) :
    ∃ c db', postContractor provider primaryFail none uid freshId body db = (⟨201, some c⟩, db') ∧
      c.name = jsTrim (body.name.getD "") ∧
      c.email = jsToLower (jsTrim (body.email.getD "")) ∧
      c.userId = uid ∧
      db'.contractors = db.contractors ++ [c] := by
  obtain ⟨row, db', heq, hctr, hproj⟩ := ensureUser_ok provider primaryFail db uid
  have hany : db'.contractors.any
      (fun d => d.email == (newContractor uid freshId body).email) = false := by
    rw [List.any_eq_false]
    intro d hd
    rw [hctr] at hd
    simpa [newContractor] using hfresh d hd
  have hpost : postContractor provider primaryFail none uid freshId body db =
      (⟨201, some (newContractor uid freshId body)⟩,
       { db' with contractors := db'.contractors ++ [newContractor uid freshId body] }) := by
    unfold postContractor
    rw [hname, hemail, hregex, heq]
    simp [contractorCreate_fresh db' (newContractor uid freshId body) hany]
  refine ⟨newContractor uid freshId body, _, hpost, rfl, rfl, rfl, ?_⟩
  simp [hctr]

/-- Witness for C7, the spec scenario: creating `{name:"Acme",
email:"A@X.com"}` stores email `"a@x.com"`. -/
theorem c7_witness :
    ∃ c db', postContractor .err none none "u1" "c1"
        { name := some "Acme", email := some "A@X.com" } emptyDb = (⟨201, some c⟩, db') ∧
      c.name = jsTrim "Acme" ∧
      c.email = jsToLower (jsTrim "A@X.com") ∧
      c.userId = "u1" ∧
      db'.contractors = emptyDb.contractors ++ [c] :=
  c7_create_normalises_fields .err none "u1" "c1"
    { name := some "Acme", email := some "A@X.com" } emptyDb
    (by decide) (by decide) (by decide)
    (by intro d hd; cases hd)

/-- C3: a contractor create whose normalized email equals the stored email
of any existing contractor row, regardless of that row's owner, answers 409
and leaves the contractor table unchanged. -/
theorem c3_duplicate_email_conflict (provider : ProviderResult) (primaryFail : Option DbError)
    (uid freshId : String) (body : ContractorBody) (db : Db) (c : Contractor)
    (hc : c ∈ db.contractors)
    (hname : truthy body.name = true)
    (hemail : truthy body.email = true)
    (hregex : emailRegexTest (body.email.getD "") = true)
    (hdup : c.email = normEmail (body.email.getD "")) :
    (postContractor provider primaryFail none uid freshId body db).1 = ⟨409, none⟩ ∧
    (postContractor provider primaryFail none uid freshId body db).2.contractors
      = db.contractors := by
  obtain ⟨row, db', heq, hctr, hproj⟩ := ensureUser_ok provider primaryFail db uid
  have hany : db'.contractors.any
      (fun d => d.email == (newContractor uid freshId body).email) = true := by
    rw [List.any_eq_true]
    exact ⟨c, by rw [hctr]; exact hc, by simp [newContractor, hdup]⟩
  have hpost : postContractor provider primaryFail none uid freshId body db
      = (⟨409, none⟩, db') := by
    unfold postContractor
    rw [hname, hemail, hregex, heq]
    simp [contractorCreate_dup db' (newContractor uid freshId body) hany]
  rw [hpost]
  exact ⟨rfl, hctr⟩

/-- A store holding one contractor owned by `u1` with stored email
`a@x.com`, for the C3 witness. -/
def dbC3 : Db :=
  { users := []
    contractors := [⟨"c1", "Acme", "a@x.com", none, none, [], ⟨"0"⟩, "u1"⟩]
    projects := [] }

/-- Witness for C3, the spec scenario: a second create with email
`A@X.com` by a different user (`u2`) answers 409 and writes no row. -/
theorem c3_witness :
    (postContractor .err none none "u2" "c2"
      { name := some "Best", email := some "A@X.com" } dbC3).1 = ⟨409, none⟩ ∧
    (postContractor .err none none "u2" "c2"
      { name := some "Best", email := some "A@X.com" } dbC3).2.contractors
      = dbC3.contractors :=
  c3_duplicate_email_conflict .err none "u2" "c2"
    { name := some "Best", email := some "A@X.com" } dbC3
    ⟨"c1", "Acme", "a@x.com", none, none, [], ⟨"0"⟩, "u1"⟩
    (by decide) (by decide) (by decide) (by decide) (by decide)

/-- C4 counterexample: a project-create request with `name` present (the
empty string) and `address` present — so neither field is absent — does not
succeed with 201; it fails with 400. -/
theorem c4_counterexample :
    (postProject .err none none "u1" "p1" 0
      { name := some "", address := some "123 Main St" } emptyDb).1.status = 400 ∧
    (postProject .err none none "u1" "p1" 0
      { name := some "", address := some "123 Main St" } emptyDb).1.status ≠ 201 := by
  exact ⟨rfl, by decide⟩

/-- C4 (amended): a project create fails with 400 and writes nothing when
name or address is absent or empty (JS-falsy); otherwise it succeeds with
201 and the persisted row has `userId = uid` and status `"PLANNING"`. -/
theorem c4_amended_create_validation (provider : ProviderResult) (primaryFail : Option DbError)
    (uid freshId : String) (now : Nat) (body : ProjectBody) (db : Db) :
    (truthy body.name = false ∨ truthy body.address = false →
      postProject provider primaryFail none uid freshId now body db = (⟨400, none⟩, db)) ∧
    (truthy body.name = true → truthy body.address = true →
      ∃ p db', postProject provider primaryFail none uid freshId now body db
          = (⟨201, some p⟩, db') ∧
        p.userId = uid ∧ p.status = "PLANNING" ∧
        db'.projects = db.projects ++ [p]) := by
  constructor
  · intro h
    unfold postProject
    rcases h with h | h <;> simp [h]
  · intro hn ha
    obtain ⟨row, db', heq, hctr, hproj⟩ := ensureUser_ok provider primaryFail db uid
    have hpost : postProject provider primaryFail none uid freshId now body db =
        (⟨201, some (newProject uid freshId now body)⟩,
         { db' with projects := db'.projects ++ [newProject uid freshId now body] }) := by
      unfold postProject
      rw [hn, ha, heq]
      simp
    refine ⟨newProject uid freshId now body, _, hpost, rfl, rfl, ?_⟩
    simp [hproj]

/-- Witness for C4, the spec scenario: creating `{name:"Deck",
address:"123 Main St"}` as `u1` yields 201, status `"PLANNING"`,
`userId = u1`. -/
theorem c4_witness :
    ∃ p db', postProject .err none none "u1" "p1" 5
        { name := some "Deck", address := some "123 Main St" } emptyDb
        = (⟨201, some p⟩, db') ∧
      p.userId = "u1" ∧ p.status = "PLANNING" ∧
      db'.projects = emptyDb.projects ++ [p] :=
  (c4_amended_create_validation .err none "u1" "p1" 5
    { name := some "Deck", address := some "123 Main St" } emptyDb).2
    (by decide) (by decide)

/-- The contractor update handler on an owned row whose patched email
conflicts with no other row: 200 and the patched row written in place. -/
theorem patchContractor_ok (uid : String) (body : ContractorBody) (db : Db) (c : Contractor)
    (hwf : db.wf) (hc : c ∈ db.contractors) (hcu : c.userId = uid)
    (hnc : ∀ d ∈ db.contractors, d.id ≠ c.id → d.email ≠ (contractorPatchData body c).email) :
    patchContractor uid c.id body db =
      (⟨200, some (contractorPatchData body c)⟩,
       { db with contractors :=
          db.contractors.map (fun d => if d.id == c.id then contractorPatchData body c else d) }) := by
  have hfind : db.contractors.find? (fun d => d.id == c.id) = some c :=
    find_of_nodup_key Contractor.id db.contractors c hwf.2.1 hc
  have hnotex : ¬ ∃ x ∈ db.contractors, ¬x.id = c.id ∧ x.email = (contractorPatchData body c).email := by
    rintro ⟨x, hx, hxid, hxe⟩
    exact hnc x hx hxid hxe
  unfold patchContractor contractorUpdate
  rw [hfind]
  simp [hcu, hnotex]

/-- The primary project update handler on an owned row: 200 and the
patched row written in place. -/
theorem patchProject_ok (uid : String) (body : ProjectBody) (db : Db) (p : Project)
    (hwf : db.wf) (hp : p ∈ db.projects) (hpu : p.userId = uid) :
    patchProject uid p.id body db =
      (⟨200, some (projectPatchData body p)⟩,
       { db with projects :=
          db.projects.map (fun d => if d.id == p.id then projectPatchData body p else d) }) := by
  have hfind : db.projects.find? (fun d => d.id == p.id) = some p :=
    find_of_nodup_key Project.id db.projects p hwf.2.2.2 hp
  unfold patchProject projectUpdate
  rw [hfind]
  simp [hpu]

/-- The second-variant project update handler on an owned row: 200 and the
spread-patched row written in place. -/
theorem patchProjectV2_ok (uid : String) (body : ProjectBody) (db : Db) (p : Project)
    (hwf : db.wf) (hp : p ∈ db.projects) (hpu : p.userId = uid) :
    patchProjectV2 uid p.id body db =
      (⟨200, some (projectPatchDataV2 body p)⟩,
       { db with projects :=
          db.projects.map (fun d => if d.id == p.id then projectPatchDataV2 body p else d) }) := by
  have hfind : db.projects.find? (fun d => d.id == p.id) = some p :=
    find_of_nodup_key Project.id db.projects p hwf.2.2.2 hp
  unfold patchProjectV2 projectUpdate
  rw [hfind]
  simp [hpu]

/-- C8: contractor update does not re-apply the create-time required-field
validation: on an owned row, an update whose name is the empty string
answers 200 and stores the empty name, while a create with an
empty-string name is rejected with 400. -/
theorem c8_patch_accepts_empty_name (uid : String) (db : Db) (c : Contractor)
    (hwf : db.wf) (hc : c ∈ db.contractors) (hcu : c.userId = uid) :
    ∃ c' db', patchContractor uid c.id { name := some "" } db = (⟨200, some c'⟩, db') ∧
      c'.name = "" ∧ c' ∈ db'.contractors ∧
      (∀ provider primaryFail freshId (body2 : ContractorBody), body2.name = some "" →
        (postContractor provider primaryFail none uid freshId body2 db).1.status = 400) := by
  have hnc : ∀ d ∈ db.contractors, d.id ≠ c.id →
      d.email ≠ (contractorPatchData { name := some "" } c).email := by
    intro d hd hdid he
    have hdc : d = c := List.inj_on_of_nodup_map hwf.2.2.1 hd hc he
    exact hdid (by rw [hdc])
  refine ⟨contractorPatchData { name := some "" } c, _,
    patchContractor_ok uid { name := some "" } db c hwf hc hcu hnc, ?_, ?_, ?_⟩
  · simp [contractorPatchData]
    decide
  · exact List.mem_map.mpr ⟨c, hc, by simp⟩
  · intro provider primaryFail freshId body2 hbn
    unfold postContractor
    rw [hbn]
    rfl

/-- A store holding one `u1`-owned contractor with a nonempty name, for
the C8 witness. -/
def dbC8 : Db :=
  { users := []
    contractors := [⟨"c1", "Acme", "a@x.com", none, none, [], ⟨"0"⟩, "u1"⟩]
    projects := [] }

/-- Witness for C8 at the concrete store `dbC8`. -/
theorem c8_witness :
    ∃ c' db', patchContractor "u1" "c1" { name := some "" } dbC8 = (⟨200, some c'⟩, db') ∧
      c'.name = "" ∧ c' ∈ db'.contractors ∧
      (∀ provider primaryFail freshId (body2 : ContractorBody), body2.name = some "" →
        (postContractor provider primaryFail none "u1" freshId body2 dbC8).1.status = 400) :=
  c8_patch_accepts_empty_name "u1" dbC8
    ⟨"c1", "Acme", "a@x.com", none, none, [], ⟨"0"⟩, "u1"⟩
    (by decide) (by decide) (by decide)

/-- A store holding one `u1`-owned project in the "PLANNING" state, for
the C9 and C1 counterexamples and witnesses. -/
def dbC9 : Db :=
  { users := []
    contractors := []
    projects := [⟨"p1", "Deck", none, "123 Main St", none, none, none, false, "u1", "PLANNING", 0⟩] }

/-- C9 counterexample: in the second update variant, a status present in
the request as the empty string is not applied — the stored status remains
"PLANNING" instead of becoming the supplied string. -/
theorem c9_counterexample :
    (patchProjectV2 "u1" "p1" { status := some "" } dbC9).1.status = 200 ∧
    (patchProjectV2 "u1" "p1" { status := some "" } dbC9).1.body.map Project.status
      = some "PLANNING" ∧
    (patchProjectV2 "u1" "p1" { status := some "" } dbC9).1.body.map Project.status
      ≠ some "" := by
  refine ⟨by decide, by decide, by decide⟩

/-- C9 (amended): neither project update variant checks the status against
any enumerated set.  The primary variant applies every present status
string verbatim (the empty string included); the second variant applies
every non-empty status string verbatim and ignores a present empty one. -/
theorem c9_amended_status_applied_verbatim (uid : String) (db : Db) (p : Project)
    (pbody : ProjectBody) (s : String)
    (hwf : db.wf) (hp : p ∈ db.projects) (hpu : p.userId = uid) :
    (pbody.status = some s →
      ∃ p' db', patchProject uid p.id pbody db = (⟨200, some p'⟩, db') ∧ p'.status = s) ∧
    (pbody.status = some s → s ≠ "" →
      ∃ p' db', patchProjectV2 uid p.id pbody db = (⟨200, some p'⟩, db') ∧ p'.status = s) ∧
    (pbody.status = some "" →
      ∃ p' db', patchProjectV2 uid p.id pbody db = (⟨200, some p'⟩, db') ∧
        p'.status = p.status) := by
  refine ⟨?_, ?_, ?_⟩
  · intro hs
    exact ⟨_, _, patchProject_ok uid pbody db p hwf hp hpu,
      by simp [projectPatchData, hs]⟩
  · intro hs hne
    exact ⟨_, _, patchProjectV2_ok uid pbody db p hwf hp hpu,
      by simp [projectPatchDataV2, truthy, hs, hne]⟩
  · intro hs
    exact ⟨_, _, patchProjectV2_ok uid pbody db p hwf hp hpu,
      by simp [projectPatchDataV2, truthy, hs]⟩

/-- Witness for C9: a status value far outside any enumeration is stored
verbatim by the primary update variant. -/
theorem c9_witness :
    ∃ p' db', patchProject "u1" "p1" { status := some "NOT_A_VALID_STATUS" } dbC9
        = (⟨200, some p'⟩, db') ∧ p'.status = "NOT_A_VALID_STATUS" :=
  (c9_amended_status_applied_verbatim "u1" dbC9
    ⟨"p1", "Deck", none, "123 Main St", none, none, none, false, "u1", "PLANNING", 0⟩
    { status := some "NOT_A_VALID_STATUS" } "NOT_A_VALID_STATUS"
    (by decide) (by decide) (by decide)).1 rfl

/-- A present-but-empty optional field is stored as `null`. -/
theorem optTrimOrNull_empty : optTrimOrNull (some "") = none := by decide

/-- C5: a partial update of an owned Project or Contractor answers 200,
leaves every field absent from the request unchanged, and stores a
present-but-empty nullable field (description, phone, company) as an
explicit absence rather than an empty string. -/
theorem c5_patch_frame_and_empty_null (uid : String) (db : Db) (p : Project) (c : Contractor)
    (pbody : ProjectBody) (cbody : ContractorBody) (hwf : db.wf) :
    (p ∈ db.projects → p.userId = uid →
      ∃ p' db', patchProject uid p.id pbody db = (⟨200, some p'⟩, db') ∧
      (pbody.name = none → p'.name = p.name) ∧
      (pbody.description = none → p'.description = p.description) ∧
      (pbody.address = none → p'.address = p.address) ∧
      (pbody.budget = none → p'.budget = p.budget) ∧
      (pbody.status = none → p'.status = p.status) ∧
      (pbody.startDate = none → p'.startDate = p.startDate) ∧
      (pbody.endDate = none → p'.endDate = p.endDate) ∧
      (pbody.isPublic = none → p'.isPublic = p.isPublic) ∧
      (pbody.description = some "" → p'.description = none)) ∧
    (c ∈ db.contractors → c.userId = uid →
      (∀ e, cbody.email = some e →
        ∀ d ∈ db.contractors, d.id ≠ c.id → d.email ≠ normEmail e) →
      ∃ c' db', patchContractor uid c.id cbody db = (⟨200, some c'⟩, db') ∧
      (cbody.name = none → c'.name = c.name) ∧
      (cbody.email = none → c'.email = c.email) ∧
      (cbody.phone = none → c'.phone = c.phone) ∧
      (cbody.company = none → c'.company = c.company) ∧
      (cbody.trades = none → c'.trades = c.trades) ∧
      (cbody.rating = none → c'.rating = c.rating) ∧
      (cbody.phone = some "" → c'.phone = none) ∧
      (cbody.company = some "" → c'.company = none)) := by
  constructor
  · intro hp hpu
    refine ⟨projectPatchData pbody p, _, patchProject_ok uid pbody db p hwf hp hpu,
      ?_, ?_, ?_, ?_, ?_, ?_, ?_, ?_, ?_⟩ <;>
      intro h <;> simp [projectPatchData, h, optTrimOrNull_empty]
  · intro hc hcu hemail
    have hnc : ∀ d ∈ db.contractors, d.id ≠ c.id →
        d.email ≠ (contractorPatchData cbody c).email := by
      intro d hd hdid
      cases hce : cbody.email with
      | none =>
          have hsame : (contractorPatchData cbody c).email = c.email := by
            simp [contractorPatchData, hce]
          rw [hsame]
          intro he
          exact hdid (by rw [List.inj_on_of_nodup_map hwf.2.2.1 hd hc he])
      | some e =>
          have hsome : (contractorPatchData cbody c).email = normEmail e := by
            simp [contractorPatchData, hce]
          rw [hsome]
          exact hemail e hce d hd hdid
    refine ⟨contractorPatchData cbody c, _,
      patchContractor_ok uid cbody db c hwf hc hcu hnc,
      ?_, ?_, ?_, ?_, ?_, ?_, ?_, ?_⟩ <;>
      intro h <;> simp [contractorPatchData, h, optTrimOrNull_empty]

/-- A store with a `u1`-owned project (description "X") and contractor,
for the C5 witness. -/
def dbC5 : Db :=
  { users := []
    contractors := [⟨"c1", "Acme", "a@x.com", some "555", some "AcmeCo", [], ⟨"0"⟩, "u1"⟩]
    projects := [⟨"p1", "Deck", some "X", "123 Main St", none, none, none, false, "u1", "PLANNING", 0⟩] }

/-- Witness for C5, the spec scenario: updating the project with
`{name:"Y", description:""}` and the contractor with `{phone:""}`. -/
theorem c5_witness :
    (∃ p' db', patchProject "u1" "p1" { name := some "Y", description := some "" } dbC5
        = (⟨200, some p'⟩, db') ∧
      (({ name := some "Y", description := some "" } : ProjectBody).name = none →
        p'.name = "Deck") ∧
      (({ name := some "Y", description := some "" } : ProjectBody).description = none →
        p'.description = some "X") ∧
      (({ name := some "Y", description := some "" } : ProjectBody).address = none →
        p'.address = "123 Main St") ∧
      (({ name := some "Y", description := some "" } : ProjectBody).budget = none →
        p'.budget = none) ∧
      (({ name := some "Y", description := some "" } : ProjectBody).status = none →
        p'.status = "PLANNING") ∧
      (({ name := some "Y", description := some "" } : ProjectBody).startDate = none →
        p'.startDate = none) ∧
      (({ name := some "Y", description := some "" } : ProjectBody).endDate = none →
        p'.endDate = none) ∧
      (({ name := some "Y", description := some "" } : ProjectBody).isPublic = none →
        p'.isPublic = false) ∧
      (({ name := some "Y", description := some "" } : ProjectBody).description = some "" →
        p'.description = none)) ∧
    (∃ c' db', patchContractor "u1" "c1" { phone := some "" } dbC5 = (⟨200, some c'⟩, db') ∧
      (({ phone := some "" } : ContractorBody).name = none → c'.name = "Acme") ∧
      (({ phone := some "" } : ContractorBody).email = none → c'.email = "a@x.com") ∧
      (({ phone := some "" } : ContractorBody).phone = none → c'.phone = some "555") ∧
      (({ phone := some "" } : ContractorBody).company = none → c'.company = some "AcmeCo") ∧
      (({ phone := some "" } : ContractorBody).trades = none → c'.trades = []) ∧
      (({ phone := some "" } : ContractorBody).rating = none → c'.rating = ⟨"0"⟩) ∧
      (({ phone := some "" } : ContractorBody).phone = some "" → c'.phone = none) ∧
      (({ phone := some "" } : ContractorBody).company = some "" → c'.company = none)) :=
  ⟨(c5_patch_frame_and_empty_null "u1" dbC5
      ⟨"p1", "Deck", some "X", "123 Main St", none, none, none, false, "u1", "PLANNING", 0⟩
      ⟨"c1", "Acme", "a@x.com", some "555", some "AcmeCo", [], ⟨"0"⟩, "u1"⟩
      { name := some "Y", description := some "" } { phone := some "" }
      (by decide)).1 (by decide) (by decide),
   (c5_patch_frame_and_empty_null "u1" dbC5
      ⟨"p1", "Deck", some "X", "123 Main St", none, none, none, false, "u1", "PLANNING", 0⟩
      ⟨"c1", "Acme", "a@x.com", some "555", some "AcmeCo", [], ⟨"0"⟩, "u1"⟩
      { name := some "Y", description := some "" } { phone := some "" }
      (by decide)).2 (by decide) (by decide) (fun e he => Option.noConfusion he)⟩

/-- A store holding a `u1`-owned contractor and project, for the C1
counterexample and witness. -/
def dbC1 : Db :=
  { users := []
    contractors := [⟨"c1", "Acme", "a@x.com", none, none, [], ⟨"0"⟩, "u1"⟩]
    projects := [⟨"p1", "Deck", none, "123 Main St", none, none, none, false, "u1", "PLANNING", 0⟩] }

/-- C1 counterexample: in the alternative contractors router, a delete by
a non-owner (`u2`) of an existing row owned by `u1` answers 404, not the
claimed 403. -/
theorem c1_counterexample :
    (⟨"c1", "Acme", "a@x.com", none, none, [], ⟨"0"⟩, "u1"⟩ : Contractor) ∈ dbC1.contractors ∧
    ("u1" : String) ≠ "u2" ∧
    (deleteContractorAlt "u2" "c1" dbC1).1.status = 404 ∧
    (deleteContractorAlt "u2" "c1" dbC1).1.status ≠ 403 :=
  ⟨by decide, by decide, by decide, by decide⟩

/-- C1 (amended): in the primary routers, a requester who is not the owner
receives 403 on direct get/update/delete of a Project or Contractor row,
and the row is excluded from that requester's scoped list results; however,
the alternative contractors router answers 404 (not 403) on such a delete,
and the unscoped contractor list variant returns the row to every
requester. -/
theorem c1_amended_ownership_enforcement (db : Db) (uid : String) (c : Contractor) (p : Project)
    (provider : ProviderResult) (primaryFail : Option DbError)
    (cbody : ContractorBody) (pbody : ProjectBody) (hwf : db.wf) :
    (c ∈ db.contractors → c.userId ≠ uid →
      (getContractorById uid c.id db).status = 403 ∧
      (patchContractor uid c.id cbody db).1.status = 403 ∧
      (deleteContractor uid c.id db).1.status = 403 ∧
      c ∉ ((getContractors provider primaryFail none uid db).1.body.getD []) ∧
      (deleteContractorAlt uid c.id db).1.status = 404 ∧
      c ∈ ((getContractorsV2 db).body.getD [])) ∧
    (p ∈ db.projects → p.userId ≠ uid →
      (getProjectById uid p.id db).status = 403 ∧
      (patchProject uid p.id pbody db).1.status = 403 ∧
      (patchProjectV2 uid p.id pbody db).1.status = 403 ∧
      (deleteProject uid p.id db).1.status = 403 ∧
      p ∉ ((getProjects provider primaryFail none uid db).1.body.getD [])) := by
  obtain ⟨row, db', heq, hctr, hproj⟩ := ensureUser_ok provider primaryFail db uid
  constructor
  · intro hc hcu
    have hcfind : db.contractors.find? (fun d => d.id == c.id) = some c :=
      find_of_nodup_key Contractor.id db.contractors c hwf.2.1 hc
    refine ⟨?_, ?_, ?_, ?_, ?_, ?_⟩
    · unfold getContractorById
      rw [hcfind]
      simp [hcu]
    · unfold patchContractor
      rw [hcfind]
      simp [hcu]
    · unfold deleteContractor
      rw [hcfind]
      simp [hcu]
    · unfold getContractors
      rw [heq]
      simp [mem_orderBy, List.mem_filter, hctr, hcu]
    · unfold deleteContractorAlt
      rw [hcfind]
      simp [hcu]
    · unfold getContractorsV2
      simp [mem_orderBy]
      exact hc
  · intro hp hpu
    have hpfind : db.projects.find? (fun d => d.id == p.id) = some p :=
      find_of_nodup_key Project.id db.projects p hwf.2.2.2 hp
    refine ⟨?_, ?_, ?_, ?_, ?_⟩
    · unfold getProjectById
      rw [hpfind]
      simp [hpu]
    · unfold patchProject
      rw [hpfind]
      simp [hpu]
    · unfold patchProjectV2
      rw [hpfind]
      simp [hpu]
    · unfold deleteProject
      rw [hpfind]
      simp [hpu]
    · unfold getProjects
      rw [heq]
      simp [mem_orderBy, List.mem_filter, hproj, hpu]

/-- Witness for C1 at the concrete store `dbC1` with requester `u2`. -/
theorem c1_witness :
    ((getContractorById "u2" "c1" dbC1).status = 403 ∧
     (patchContractor "u2" "c1" {} dbC1).1.status = 403 ∧
     (deleteContractor "u2" "c1" dbC1).1.status = 403 ∧
     (⟨"c1", "Acme", "a@x.com", none, none, [], ⟨"0"⟩, "u1"⟩ : Contractor) ∉
       ((getContractors .err none none "u2" dbC1).1.body.getD []) ∧
     (deleteContractorAlt "u2" "c1" dbC1).1.status = 404 ∧
     (⟨"c1", "Acme", "a@x.com", none, none, [], ⟨"0"⟩, "u1"⟩ : Contractor) ∈
       ((getContractorsV2 dbC1).body.getD [])) ∧
    ((getProjectById "u2" "p1" dbC1).status = 403 ∧
     (patchProject "u2" "p1" {} dbC1).1.status = 403 ∧
     (patchProjectV2 "u2" "p1" {} dbC1).1.status = 403 ∧
     (deleteProject "u2" "p1" dbC1).1.status = 403 ∧
     (⟨"p1", "Deck", none, "123 Main St", none, none, none, false, "u1", "PLANNING", 0⟩ : Project) ∉
       ((getProjects .err none none "u2" dbC1).1.body.getD [])) :=
  ⟨(c1_amended_ownership_enforcement dbC1 "u2"
      ⟨"c1", "Acme", "a@x.com", none, none, [], ⟨"0"⟩, "u1"⟩
      ⟨"p1", "Deck", none, "123 Main St", none, none, none, false, "u1", "PLANNING", 0⟩
      .err none {} {} (by decide)).1 (by decide) (by decide),
   (c1_amended_ownership_enforcement dbC1 "u2"
      ⟨"c1", "Acme", "a@x.com", none, none, [], ⟨"0"⟩, "u1"⟩
      ⟨"p1", "Deck", none, "123 Main St", none, none, none, false, "u1", "PLANNING", 0⟩
      .err none {} {} (by decide)).2 (by decide) (by decide)⟩

end Ottoway
